import Mathlib

/-!
Verification of the external-account (identity pool) credential engine:
a shallow embedding of the credential-source validation, subject-token
retrieval, token-exchange and service-account-impersonation pipeline,
together with theorems about its observable behavior.

The repository snapshot carries only the test suite of the engine
(src/tests/test_identity_pool.py); the engine itself
(google/auth/identity_pool.py and the shared external-account machinery)
is not among the source files. The definitions below are therefore
modelled from the specification (spec.md), with the concrete error
messages and the ordering of the construction-time checks taken from the
repository's own tests where the specification leaves them open.
-/

namespace IdentityPool

/-- Modelled from the spec (section 3, CredentialSource): the optional
`format` descriptor of a credential source, as it arrives in the raw
configuration mapping: a `type` string and an optional
`subject_token_field_name`. -/
structure FormatInput where
  type : String
  subject_token_field_name : Option String
deriving DecidableEq

/-- Modelled from the spec (section 3): the raw credential_source mapping as
passed to the constructor, with each recognized key optional. The engine's
constructor (google.auth.identity_pool.Credentials, absent from the
snapshot) reads exactly these keys. -/
structure SourceMapping where
  file : Option String
  url : Option String
  environment_id : Option String
  format : Option FormatInput
  headers : Option (List (String × String))
deriving DecidableEq

/-- Modelled from the spec (section 6, configuration surface): the
credential_source constructor argument is either a mapping or some other
value (the tests pass a plain string); a non-mapping carries no file and
no url. -/
inductive CredentialSourceInput where
  | mapping (m : SourceMapping)
  | notMapping (raw : String)
deriving DecidableEq

/-- Modelled from the spec (section 3): the validated format of a credential
source, text or json with the configured field name. -/
inductive CredFormat where
  | text
  | json (fieldName : String)
deriving DecidableEq

/-- Modelled from the spec (section 3): a validated credential source,
discriminated by exactly one of file or url; URL sources keep their
optional extra headers. -/
inductive ParsedSource where
  | fromFile (path : String) (fmt : CredFormat)
  | fromUrl (url : String) (headers : Option (List (String × String))) (fmt : CredFormat)
deriving DecidableEq

/-- Modelled from the spec (sections 7 and 8): the configuration error for a
credential_source providing neither file nor url; the message names
"Missing credential_source" as the tests require. -/
def missingSourceMsg : String :=
  "Missing credential_source. A 'file' or 'url' must be provided."

/-- Modelled from the spec (sections 7 and 8): the configuration error for a
credential_source providing both file and url. -/
def ambiguousSourceMsg : String :=
  "Ambiguous credential_source. 'file' is mutually exclusive with 'url'."

/-- Modelled from the spec (section 3): the configuration error rejecting an
environment_id field on an identity-pool credential source. -/
def envIdMsg : String :=
  "Invalid Identity Pool credential_source field 'environment_id'"

/-- Modelled from the spec (sections 3 and 8): the configuration error for a
format type outside {text, json}, naming the invalid type. -/
def invalidFormatMsg (t : String) : String :=
  "Invalid credential_source format '" ++ t ++ "'"

/-- Modelled from the spec (sections 3 and 8): the configuration error for a
json format descriptor without a subject_token_field_name. -/
def missingFieldNameMsg : String :=
  "Missing subject_token_field_name for JSON credential_source format"

/-- Modelled from the spec (section 3): validation of the format descriptor.
An absent descriptor means text; type json requires a field name; any
other type is invalid. -/
def parseFormat (f : Option FormatInput) : Except String CredFormat :=
  match f with
  | none => Except.ok CredFormat.text
  | some fi =>
    if fi.type = "text" then Except.ok CredFormat.text
    else if fi.type = "json" then
      match fi.subject_token_field_name with
      | some name => Except.ok (CredFormat.json name)
      | none => Except.error missingFieldNameMsg
    else Except.error (invalidFormatMsg fi.type)

/-- Modelled from the spec (sections 3, 4.4 and 7): eager construction-time
validation of the credential_source. A non-mapping value carries neither
file nor url and the per-mapping checks do not apply to it, so it fails as
missing. Within a mapping, the environment_id and format checks run before
the missing/ambiguous discrimination; the specification leaves this order
open and the repository's tests fix it (a mapping holding only an invalid
format fails naming the format, not the missing source). -/
def validateCredentialSource (input : CredentialSourceInput) : Except String ParsedSource :=
  match input with
  | CredentialSourceInput.notMapping _ => Except.error missingSourceMsg
  | CredentialSourceInput.mapping m =>
    if m.environment_id.isSome then Except.error envIdMsg
    else
      match parseFormat m.format with
      | Except.error e => Except.error e
      | Except.ok fmt =>
        match m.file, m.url with
        | some _, some _ => Except.error ambiguousSourceMsg
        | some p, none => Except.ok (ParsedSource.fromFile p fmt)
        | none, some u => Except.ok (ParsedSource.fromUrl u m.headers fmt)
        | none, none => Except.error missingSourceMsg

/-- Modelled from the spec (sections 3 and 6): the validated, immutable
credential configuration owned by the lifecycle controller. -/
structure Config where
  audience : String
  subject_token_type : String
  token_url : String
  service_account_impersonation_url : Option String
  client_id : Option String
  client_secret : Option String
  source : ParsedSource
  quota_project_id : Option String
  scopes : Option (List String)
  default_scopes : Option (List String)
deriving DecidableEq

/-- Modelled from the spec (section 6): the raw configuration surface
consumed at construction, before credential_source validation. -/
structure ConfigInput where
  audience : String
  subject_token_type : String
  token_url : String
  service_account_impersonation_url : Option String
  client_id : Option String
  client_secret : Option String
  credential_source : CredentialSourceInput
  quota_project_id : Option String
  scopes : Option (List String)
  default_scopes : Option (List String)
deriving DecidableEq

/-- Modelled from the spec (sections 4.4 and 7): the constructor. It fails
fast on an invalid credential_source; it is a pure function of the
configuration and takes no transport, so construction performs no I/O. -/
def mkCredentials (ci : ConfigInput) : Except String Config :=
  match validateCredentialSource ci.credential_source with
  | Except.error e => Except.error e
  | Except.ok src =>
    Except.ok
      { audience := ci.audience
        subject_token_type := ci.subject_token_type
        token_url := ci.token_url
        service_account_impersonation_url := ci.service_account_impersonation_url
        client_id := ci.client_id
        client_secret := ci.client_secret
        source := src
        quota_project_id := ci.quota_project_id
        scopes := ci.scopes
        default_scopes := ci.default_scopes }

/-- Whether `needle` occurs as a contiguous substring of `hay`: used to state
that an error message names a given condition. -/
def containsSubstr (hay needle : String) : Bool :=
  (List.range (hay.length + 1)).any (fun i => needle.data.isPrefixOf (hay.data.drop i))

/-- Modelled from the spec (section 4.2): the caller-resolved scope list of
the lifecycle controller: explicit scopes if non-empty, else default
scopes, else empty. -/
def resolvedScopes (cfg : Config) : List String :=
  match cfg.scopes with
  | none => cfg.default_scopes.getD []
  | some [] => cfg.default_scopes.getD []
  | some s => s

/-- Modelled from the spec (section 4.2): the token-exchange grant type URI
constant. -/
def tokenExchangeGrantType : String := "urn:ietf:params:oauth:grant-type:token-exchange"

/-- Modelled from the spec (section 4.2): the access-token requested token
type URI constant. -/
def accessTokenType : String := "urn:ietf:params:oauth:token-type:access_token"

/-- Modelled from the spec (section 4.2): the fixed IAM scope requested from
the exchange endpoint whenever impersonation is configured. -/
def iamScope : String := "https://www.googleapis.com/auth/iam"

/-- The RFC 4648 base64 alphabet, for the basic-auth header value. -/
def base64Alphabet : List Char :=
  "ABCDEFGHIJKLMNOPQRSTUVWXYZabcdefghijklmnopqrstuvwxyz0123456789+/".data

/-- The base64 digit for a 6-bit value. -/
def base64Digit (n : Nat) : Char := base64Alphabet.getD n 'A'

/-- The UTF-8 bytes of one character, as the byte encoding applied to the
client id and secret before base64. -/
def utf8Bytes (c : Char) : List Nat :=
  let n := c.toNat
  if n < 128 then [n]
  else if n < 2048 then [192 + n / 64, 128 + n % 64]
  else if n < 65536 then [224 + n / 4096, 128 + n / 64 % 64, 128 + n % 64]
  else [240 + n / 262144, 128 + n / 4096 % 64, 128 + n / 64 % 64, 128 + n % 64]

/-- RFC 4648 base64 of a byte list, three bytes to four digits with `=`
padding. -/
def base64Chunks : List Nat → List Char
  | [] => []
  | [b0] =>
    let n := b0 * 65536
    [base64Digit (n / 262144 % 64), base64Digit (n / 4096 % 64), '=', '=']
  | [b0, b1] =>
    let n := b0 * 65536 + b1 * 256
    [base64Digit (n / 262144 % 64), base64Digit (n / 4096 % 64), base64Digit (n / 64 % 64), '=']
  | b0 :: b1 :: b2 :: rest =>
    let n := b0 * 65536 + b1 * 256 + b2
    base64Digit (n / 262144 % 64) :: base64Digit (n / 4096 % 64) ::
      base64Digit (n / 64 % 64) :: base64Digit (n % 64) :: base64Chunks rest

/-- base64 of a string's UTF-8 bytes. -/
def base64Encode (s : String) : String :=
  String.mk (base64Chunks (List.flatten (s.data.map utf8Bytes)))

/-- Modelled from the spec (section 4.2): the token-exchange HTTP request the
engine sends: a POST to the token URL with form-encoded parameters. -/
structure StsRequest where
  url : String
  method : String
  headers : List (String × String)
  params : List (String × String)
deriving DecidableEq

/-- Modelled from the spec (section 4.2): the basic-auth header, present with
value Basic base64(id:secret) exactly when both client_id and
client_secret are configured, absent otherwise. -/
def basicAuthHeaders (clientId clientSecret : Option String) : List (String × String) :=
  match clientId, clientSecret with
  | some i, some s => [("Authorization", "Basic " ++ base64Encode (i ++ ":" ++ s))]
  | _, _ => []

/-- Modelled from the spec (section 4.2): the scope list requested from the
exchange endpoint: the fixed IAM scope when impersonation is configured,
the caller-resolved scopes otherwise. -/
def exchangeScopes (cfg : Config) : List String :=
  if cfg.service_account_impersonation_url.isSome then [iamScope] else resolvedScopes cfg

/-- Modelled from the spec (section 4.2): building the token-exchange request
for a retrieved subject token. -/
def buildTokenRequest (cfg : Config) (subjectToken : String) : StsRequest :=
  { url := cfg.token_url
    method := "POST"
    headers :=
      ("Content-Type", "application/x-www-form-urlencoded")
        :: basicAuthHeaders cfg.client_id cfg.client_secret
    params :=
      [ ("grant_type", tokenExchangeGrantType)
      , ("audience", cfg.audience)
      , ("requested_token_type", accessTokenType)
      , ("scope", String.intercalate " " (exchangeScopes cfg))
      , ("subject_token", subjectToken)
      , ("subject_token_type", cfg.subject_token_type) ] }

/-- Modelled from the spec (sections 3 and 4.3): the JSON body of the
impersonation request: delegates (null when no chain is configured), the
requested scope list, and the fixed "3600s" lifetime. -/
structure ImpersonationBody where
  delegates : Option (List String)
  scope : List String
  lifetime : String
deriving DecidableEq

/-- Modelled from the spec (section 4.3): the impersonation HTTP request: a
JSON POST to the impersonation URL carrying the exchange step's access
token as a bearer token. -/
structure ImpersonationRequest where
  url : String
  method : String
  headers : List (String × String)
  body : ImpersonationBody
deriving DecidableEq

/-- Modelled from the spec (section 4.3): building the impersonation request
from the configuration and the bearer token obtained at the exchange
step. -/
def buildImpersonationRequest (cfg : Config) (impUrl : String) (bearerToken : String) :
    ImpersonationRequest :=
  { url := impUrl
    method := "POST"
    headers :=
      [ ("Content-Type", "application/json")
      , ("authorization", "Bearer " ++ bearerToken) ]
    body := { delegates := none, scope := resolvedScopes cfg, lifetime := "3600s" } }

/-- Modelled from the spec (sections 4.1 and 6): a body fetched from a
subject-token source, as the format-parsing routine sees it: the raw
bytes (as a string) together with the result of JSON-decoding them — the
decoded string fields when the body is a valid JSON object, none when it
is not valid JSON. -/
structure SourceBody where
  raw : String
  jsonFields : Option (List (String × String))
deriving DecidableEq

/-- Modelled from the spec (section 4.1): the shared parse-error message of
both source kinds, naming the source (file path or URL) and the
configured field name. -/
def parseErrMsg (sourceName fieldName : String) : String :=
  "Unable to parse subject_token from JSON file '" ++ sourceName ++ "' using key '"
    ++ fieldName ++ "'"

/-- Modelled from the spec (section 4.1): the error for a source lacking the
subject token (an empty text body or an empty extracted field). -/
def missingTokenMsg : String := "Missing subject_token in the credential_source file"

/-- Modelled from the spec (section 4.1): the network-failure error of a URL
source returning a non-2xx status, the branch independent from the
parse-failure branch. -/
def urlRetrievalErrMsg : String := "Unable to retrieve Identity Pool subject token"

/-- Modelled from the spec (section 4.1): the error for a missing source
file. -/
def fileNotFoundMsg (path : String) : String := "File '" ++ path ++ "' was not found"

/-- Extracting the configured field from a fetched body: none when the body
is not valid JSON or lacks the field. -/
def jsonExtract (body : SourceBody) (fieldName : String) : Option String :=
  match body.jsonFields with
  | none => none
  | some fields => fields.lookup fieldName

/-- Modelled from the spec (section 4.1): the one format-parsing routine
shared by file and URL sources; only the fetch step differs. Text format
takes the body verbatim; json format extracts the configured field and
fails with the shared parse error naming the source and the field; a
token that comes out empty is missing. -/
def parseSubjectToken : CredFormat → String → SourceBody → Except String String
  | CredFormat.text, _, body =>
    if body.raw = "" then Except.error missingTokenMsg else Except.ok body.raw
  | CredFormat.json fieldName, sourceName, body =>
    match jsonExtract body fieldName with
    | none => Except.error (parseErrMsg sourceName fieldName)
    | some token =>
      if token = "" then Except.error missingTokenMsg else Except.ok token

/-- Modelled from the spec (section 6): a transport response for the
subject-token URL source: status and body. -/
structure HttpResponse where
  status : Nat
  body : SourceBody
deriving DecidableEq

/-- A 2xx HTTP status. -/
def isSuccess (status : Nat) : Bool := 200 ≤ status && status < 300

/-- Modelled from the spec (sections 4.2 and 6): the token endpoint's
response: access token, token type, expires-in seconds, issued token
type and granted scope string. -/
structure StsResponse where
  access_token : String
  token_type : String
  expires_in : Nat
  issued_token_type : String
  scope : String
deriving DecidableEq

/-- Modelled from the spec (sections 4.3 and 6): the impersonation endpoint's
response: access token and the server-provided absolute expire time
(an instant, in seconds). -/
structure ImpersonationResponse where
  accessToken : String
  expireTime : Nat
deriving DecidableEq

/-- The token endpoint as the engine observes it: a status and, for a 2xx
body, the parse result (none models an unparsable body). -/
structure StsEndpoint where
  status : Nat
  parsed : Option StsResponse
deriving DecidableEq

/-- The impersonation endpoint as the engine observes it. -/
structure ImpEndpoint where
  status : Nat
  parsed : Option ImpersonationResponse
deriving DecidableEq

/-- The external world one refresh runs against: the file system, the
response of a GET to the credential source URL, and the two endpoints. -/
structure Env where
  fs : String → Option SourceBody
  urlResponse : HttpResponse
  stsEndpoint : StsEndpoint
  impEndpoint : ImpEndpoint

/-- Modelled from the spec (section 4.1): subject-token retrieval: read the
source file (failing when absent) or GET the source URL (failing on a
non-2xx status regardless of the body), then run the shared
format-parsing routine with the path or the URL as the source name. -/
def retrieveSubjectToken : ParsedSource → Env → Except String String
  | ParsedSource.fromFile path fmt, env =>
    match env.fs path with
    | none => Except.error (fileNotFoundMsg path)
    | some body => parseSubjectToken fmt path body
  | ParsedSource.fromUrl u _ fmt, env =>
    if isSuccess env.urlResponse.status then
      parseSubjectToken fmt u env.urlResponse.body
    else Except.error urlRetrievalErrMsg

/-- Modelled from the spec (section 4.2): the exchange step fails on a
non-2xx status or an unparsable body, and otherwise yields the parsed
response. -/
def exchangeErrMsg : String := "Unable to acquire access token"

/-- Modelled from the spec (section 4.2): running the token exchange against
the endpoint. -/
def exchangeToken (ep : StsEndpoint) : Except String StsResponse :=
  if isSuccess ep.status then
    match ep.parsed with
    | some r => Except.ok r
    | none => Except.error exchangeErrMsg
  else Except.error exchangeErrMsg

/-- Modelled from the spec (section 4.3): the impersonation step's error on a
non-2xx response. -/
def impersonationErrMsg : String := "Unable to acquire impersonated credentials"

/-- Modelled from the spec (section 4.3): running the impersonation call
against the endpoint. -/
def impersonateToken (ep : ImpEndpoint) : Except String ImpersonationResponse :=
  if isSuccess ep.status then
    match ep.parsed with
    | some r => Except.ok r
    | none => Except.error impersonationErrMsg
  else Except.error impersonationErrMsg

/-- Modelled from the spec (section 3): the token owned by the lifecycle
controller: the access-token string and its absolute expiry instant. -/
structure Token where
  token : String
  expiry : Nat
deriving DecidableEq

deriving instance DecidableEq for Except

/-- What one refresh run did: the token-exchange and impersonation requests
it sent (none when the failing earlier step kept it from reaching them)
and its result. -/
structure RefreshTrace where
  exchangeRequest : Option StsRequest
  impersonationRequest : Option ImpersonationRequest
  result : Except String Token
deriving DecidableEq

/-- Modelled from the spec (sections 4.4 and 2): one refresh: retrieve the
subject token, exchange it at the token endpoint, then — exactly when an
impersonation URL is configured — call the impersonation endpoint; the
resulting token is the impersonation response's access token with the
server-provided expire time, or the exchange response's access token
expiring expires_in seconds after now. Any sub-step failure aborts the
pipeline with that step's error. -/
def doRefresh (cfg : Config) (env : Env) (now : Nat) : RefreshTrace :=
  match retrieveSubjectToken cfg.source env with
  | Except.error e =>
    { exchangeRequest := none, impersonationRequest := none, result := Except.error e }
  | Except.ok subjectToken =>
    let treq := buildTokenRequest cfg subjectToken
    match exchangeToken env.stsEndpoint with
    | Except.error e =>
      { exchangeRequest := some treq, impersonationRequest := none, result := Except.error e }
    | Except.ok sr =>
      match cfg.service_account_impersonation_url with
      | none =>
        { exchangeRequest := some treq
          impersonationRequest := none
          result := Except.ok { token := sr.access_token, expiry := now + sr.expires_in } }
      | some impUrl =>
        let ireq := buildImpersonationRequest cfg impUrl sr.access_token
        match impersonateToken env.impEndpoint with
        | Except.error e =>
          { exchangeRequest := some treq
            impersonationRequest := some ireq
            result := Except.error e }
        | Except.ok ir =>
          { exchangeRequest := some treq
            impersonationRequest := some ireq
            result := Except.ok { token := ir.accessToken, expiry := ir.expireTime } }

/-- Modelled from the spec (section 4.4): the lifecycle controller's state:
the configuration and the currently stored token and expiry, absent
before the first successful refresh. -/
structure Credentials where
  cfg : Config
  token : Option String
  expiry : Option Nat

/-- Modelled from the spec (sections 4.4 and 7): the public refresh: on
success the stored token is replaced wholesale by the fresh one; on any
failure the state is returned untouched together with the error. -/
def Credentials.refresh (c : Credentials) (env : Env) (now : Nat) :
    Credentials × Option String :=
  match (doRefresh c.cfg env now).result with
  | Except.ok t => ({ c with token := some t.token, expiry := some t.expiry }, none)
  | Except.error e => (c, some e)

/-! Concrete sample values used by the witness theorems. -/

/-- A sample fetched body: raw text, and an access_token field when decoded
as JSON. -/
def sampleBody : SourceBody :=
  { raw := "subject_token_0", jsonFields := some [("access_token", "json_token_0")] }

/-- A sample file system holding one token file. -/
def sampleFs : String → Option SourceBody :=
  fun p => if p = "/data/token.txt" then some sampleBody else none

/-- A sample token endpoint response. -/
def sampleSts : StsResponse :=
  { access_token := "ACCESS_TOKEN", token_type := "Bearer", expires_in := 3600,
    issued_token_type := accessTokenType, scope := "scope1 scope2" }

/-- A sample impersonation endpoint response. -/
def sampleImp : ImpersonationResponse :=
  { accessToken := "SA_ACCESS_TOKEN", expireTime := 99999 }

/-- A sample environment where every step succeeds. -/
def sampleEnv : Env :=
  { fs := sampleFs
    urlResponse := { status := 200, body := sampleBody }
    stsEndpoint := { status := 200, parsed := some sampleSts }
    impEndpoint := { status := 200, parsed := some sampleImp } }

/-- A sample configuration: text file source, no impersonation, explicit
scopes and ignored default scopes. -/
def baseCfg : Config :=
  { audience := "//iam.googleapis.com/projects/123456/locations/global/workloadIdentityPools/POOL_ID/providers/PROVIDER_ID"
    subject_token_type := "urn:ietf:params:oauth:token-type:jwt"
    token_url := "https://sts.googleapis.com/v1/token"
    service_account_impersonation_url := none
    client_id := none
    client_secret := none
    source := ParsedSource.fromFile "/data/token.txt" CredFormat.text
    quota_project_id := none
    scopes := some ["scope1", "scope2"]
    default_scopes := some ["ignored"] }

/-- A sample impersonation URL. -/
def sampleImpUrl : String :=
  "https://us-east1-iamcredentials.googleapis.com/v1/projects/-/serviceAccounts/sa@p.iam.gserviceaccount.com:generateAccessToken"

/-- The sample configuration with impersonation configured. -/
def impCfg : Config :=
  { baseCfg with service_account_impersonation_url := some sampleImpUrl }

/-- An environment whose file system is empty, so subject-token retrieval
fails. -/
def failEnv : Env := { sampleEnv with fs := fun _ => none }

/-- A credential holding a previously cached token. -/
def cachedCred : Credentials :=
  { cfg := baseCfg, token := some "OLD_TOKEN", expiry := some 50 }

/-- A body that is not valid JSON. -/
def badBody : SourceBody := { raw := "\x7b", jsonFields := none }

/-- An environment whose files all hold the malformed body. -/
def badFileEnv : Env := { sampleEnv with fs := fun _ => some badBody }

/-- An environment whose source URL returns the malformed body with a 2xx
status. -/
def badUrlEnv : Env := { sampleEnv with urlResponse := { status := 200, body := badBody } }

/-- An environment whose source URL returns 404. -/
def notFoundEnv : Env :=
  { sampleEnv with urlResponse := { status := 404, body := sampleBody } }

/-- A raw configuration input whose credential_source is not a mapping. -/
def nonMappingInput : ConfigInput :=
  { audience := baseCfg.audience
    subject_token_type := baseCfg.subject_token_type
    token_url := baseCfg.token_url
    service_account_impersonation_url := none
    client_id := none
    client_secret := none
    credential_source := CredentialSourceInput.notMapping "non-dict"
    quota_project_id := none
    scopes := none
    default_scopes := none }

/-- A credential_source mapping holding only an invalid format descriptor
(neither file nor url). -/
def xmlFormatMapping : SourceMapping :=
  { file := none, url := none, environment_id := none,
    format := some { type := "xml", subject_token_field_name := none }, headers := none }

/-- A raw configuration input carrying the invalid-format mapping. -/
def xmlFormatInput : ConfigInput :=
  { nonMappingInput with credential_source := CredentialSourceInput.mapping xmlFormatMapping }

/-- A credential_source mapping with no recognized key at all. -/
def emptyMapping : SourceMapping :=
  { file := none, url := none, environment_id := none, format := none, headers := none }

/-- A raw configuration input carrying the empty mapping. -/
def emptyMappingInput : ConfigInput :=
  { nonMappingInput with credential_source := CredentialSourceInput.mapping emptyMapping }

/-! Helper lemmas shared by the claim theorems. -/

/-- A successful exchange step comes from the endpoint's parsed response. -/
theorem exchangeToken_ok_parsed {ep : StsEndpoint} {r : StsResponse}
    (h : exchangeToken ep = Except.ok r) : ep.parsed = some r := by
  unfold exchangeToken at h
  split at h
  · cases hp : ep.parsed with
    | none => rw [hp] at h; exact absurd h (by simp)
    | some x => rw [hp] at h; cases h; rfl
  · exact absurd h (by simp)

/-- A successful impersonation step comes from the endpoint's parsed
response. -/
theorem impersonateToken_ok_parsed {ep : ImpEndpoint} {r : ImpersonationResponse}
    (h : impersonateToken ep = Except.ok r) : ep.parsed = some r := by
  unfold impersonateToken at h
  split at h
  · cases hp : ep.parsed with
    | none => rw [hp] at h; exact absurd h (by simp)
    | some x => rw [hp] at h; cases h; rfl
  · exact absurd h (by simp)

/-- Every token-exchange request a refresh sends is built by
buildTokenRequest from the configuration and some subject token. -/
theorem doRefresh_exchangeRequest_shape {cfg : Config} {env : Env} {now : Nat} {req : StsRequest}
    (h : (doRefresh cfg env now).exchangeRequest = some req) :
    ∃ st, req = buildTokenRequest cfg st := by
  unfold doRefresh at h
  cases hs : retrieveSubjectToken cfg.source env with
  | error e => simp only [hs] at h; exact Option.noConfusion h
  | ok st =>
    refine ⟨st, ?_⟩
    simp only [hs] at h
    cases he : exchangeToken env.stsEndpoint with
    | error e => simp only [he, Option.some.injEq] at h; exact h.symm
    | ok sr =>
      simp only [he] at h
      cases himp : cfg.service_account_impersonation_url with
      | none => simp only [himp, Option.some.injEq] at h; exact h.symm
      | some impUrl =>
        simp only [himp] at h
        cases hi : impersonateToken env.impEndpoint with
        | error e => simp only [hi, Option.some.injEq] at h; exact h.symm
        | ok ir => simp only [hi, Option.some.injEq] at h; exact h.symm

/-- Every impersonation request a refresh sends is built by
buildImpersonationRequest from the configuration, the configured
impersonation URL and some bearer token. -/
theorem doRefresh_impersonationRequest_shape {cfg : Config} {env : Env} {now : Nat}
    {ireq : ImpersonationRequest}
    (h : (doRefresh cfg env now).impersonationRequest = some ireq) :
    ∃ impUrl bearer, cfg.service_account_impersonation_url = some impUrl ∧
      ireq = buildImpersonationRequest cfg impUrl bearer := by
  unfold doRefresh at h
  cases hs : retrieveSubjectToken cfg.source env with
  | error e => simp only [hs] at h; exact Option.noConfusion h
  | ok st =>
    simp only [hs] at h
    cases he : exchangeToken env.stsEndpoint with
    | error e => simp only [he] at h; exact Option.noConfusion h
    | ok sr =>
      simp only [he] at h
      cases himp : cfg.service_account_impersonation_url with
      | none => simp only [himp] at h; exact Option.noConfusion h
      | some impUrl =>
        refine ⟨impUrl, sr.access_token, rfl, ?_⟩
        simp only [himp] at h
        cases hi : impersonateToken env.impEndpoint with
        | error e => simp only [hi, Option.some.injEq] at h; exact h.symm
        | ok ir => simp only [hi, Option.some.injEq] at h; exact h.symm

/-- A successful refresh result comes from the exchange response when no
impersonation is configured, and from the impersonation response when it
is. -/
theorem doRefresh_result_ok_shape {cfg : Config} {env : Env} {now : Nat} {tok : Token}
    (h : (doRefresh cfg env now).result = Except.ok tok) :
    (cfg.service_account_impersonation_url = none ∧
      ∃ sr, exchangeToken env.stsEndpoint = Except.ok sr ∧
        tok = { token := sr.access_token, expiry := now + sr.expires_in }) ∨
    (∃ impUrl ir, cfg.service_account_impersonation_url = some impUrl ∧
      impersonateToken env.impEndpoint = Except.ok ir ∧
      tok = { token := ir.accessToken, expiry := ir.expireTime }) := by
  unfold doRefresh at h
  cases hs : retrieveSubjectToken cfg.source env with
  | error e => simp only [hs] at h; exact Except.noConfusion h
  | ok st =>
    simp only [hs] at h
    cases he : exchangeToken env.stsEndpoint with
    | error e => simp only [he] at h; exact Except.noConfusion h
    | ok sr =>
      simp only [he] at h
      cases himp : cfg.service_account_impersonation_url with
      | none =>
        simp only [himp, Except.ok.injEq] at h
        exact Or.inl ⟨rfl, sr, rfl, h.symm⟩
      | some impUrl =>
        simp only [himp] at h
        cases hi : impersonateToken env.impEndpoint with
        | error e => simp only [hi] at h; exact Except.noConfusion h
        | ok ir =>
          simp only [hi, Except.ok.injEq] at h
          exact Or.inr ⟨impUrl, ir, rfl, rfl, h.symm⟩

/-! Theorems for the claims. -/

/-- C3: for every credential holding a previously cached token, a refresh
attempt that fails at any sub-step leaves the stored token and expiry
exactly as they were, surfacing only the error. -/
theorem failed_refresh_preserves_cached_token
    (c : Credentials) (env : Env) (now : Nat) (e : String)
    (hfail : (doRefresh c.cfg env now).result = Except.error e) :
    (c.refresh env now).1.token = c.token ∧
    (c.refresh env now).1.expiry = c.expiry ∧
    (c.refresh env now).2 = some e := by
  unfold Credentials.refresh
  rw [hfail]
  exact ⟨rfl, rfl, rfl⟩

/-- Witness for C3: a credential with a cached token, refreshed against an
environment whose source file is missing, keeps its token and expiry. -/
theorem failed_refresh_preserves_cached_token_witness :
    (doRefresh cachedCred.cfg failEnv 0).result
        = Except.error (fileNotFoundMsg "/data/token.txt") ∧
    ((cachedCred.refresh failEnv 0).1.token = cachedCred.token ∧
      (cachedCred.refresh failEnv 0).1.expiry = cachedCred.expiry ∧
      (cachedCred.refresh failEnv 0).2 = some (fileNotFoundMsg "/data/token.txt")) :=
  ⟨rfl, failed_refresh_preserves_cached_token cachedCred failEnv 0 _ rfl⟩

/-- C9: for every file-based source with text format and non-empty content,
retrieval returns the content exactly, with no trimming or
normalization. -/
theorem text_file_retrieve_roundtrip
    (path content : String) (jf : Option (List (String × String))) (env : Env)
    (hfs : env.fs path = some { raw := content, jsonFields := jf })
    (hne : content ≠ "") :
    retrieveSubjectToken (ParsedSource.fromFile path CredFormat.text) env
      = Except.ok content := by
  simp only [retrieveSubjectToken, hfs, parseSubjectToken]
  rw [if_neg hne]

/-- Witness for C9: retrieving from the sample file returns its exact
content, trailing characters included. -/
theorem text_file_retrieve_roundtrip_witness :
    sampleEnv.fs "/data/token.txt"
        = some { raw := "subject_token_0", jsonFields := some [("access_token", "json_token_0")] } ∧
    "subject_token_0" ≠ "" ∧
    retrieveSubjectToken (ParsedSource.fromFile "/data/token.txt" CredFormat.text) sampleEnv
      = Except.ok "subject_token_0" :=
  ⟨rfl, by decide,
    text_file_retrieve_roundtrip "/data/token.txt" "subject_token_0"
      (some [("access_token", "json_token_0")]) sampleEnv rfl (by decide)⟩

/-- C10: a credential_source that is not a mapping fails construction with
the same "Missing credential_source" error as a mapping lacking both file
and url. -/
theorem non_mapping_source_missing_error
    (ci : ConfigInput) (s : String)
    (hsrc : ci.credential_source = CredentialSourceInput.notMapping s) :
    mkCredentials ci = Except.error missingSourceMsg ∧
    validateCredentialSource (CredentialSourceInput.mapping emptyMapping)
      = Except.error missingSourceMsg := by
  constructor
  · unfold mkCredentials
    rw [hsrc]
    rfl
  · rfl

/-- Witness for C10: the sample non-mapping configuration input fails with
the missing-source error. -/
theorem non_mapping_source_missing_error_witness :
    nonMappingInput.credential_source = CredentialSourceInput.notMapping "non-dict" ∧
    (mkCredentials nonMappingInput = Except.error missingSourceMsg ∧
      validateCredentialSource (CredentialSourceInput.mapping emptyMapping)
        = Except.error missingSourceMsg) :=
  ⟨rfl, non_mapping_source_missing_error nonMappingInput "non-dict" rfl⟩

/-- C7 counterexample: a credential_source mapping with neither file nor url
but an invalid format descriptor fails construction with the
invalid-format error, whose message does not name "Missing
credential_source". -/
theorem missing_source_claim_counterexample :
    validateCredentialSource (CredentialSourceInput.mapping xmlFormatMapping)
      = Except.error (invalidFormatMsg "xml") ∧
    mkCredentials xmlFormatInput = Except.error (invalidFormatMsg "xml") ∧
    containsSubstr (invalidFormatMsg "xml") "Missing credential_source" = false :=
  ⟨rfl, rfl, by decide⟩

/-- C7 (amended): for every credential_source mapping with no environment_id
and a valid format descriptor, construction fails naming "Missing
credential_source" when the mapping holds neither file nor url, and
naming "Ambiguous credential_source" when it holds both. -/
theorem missing_or_ambiguous_source_validation
    (ci : ConfigInput) (m : SourceMapping) (fmt : CredFormat)
    (hsrc : ci.credential_source = CredentialSourceInput.mapping m)
    (henv : m.environment_id = none)
    (hfmt : parseFormat m.format = Except.ok fmt) :
    (m.file = none → m.url = none → mkCredentials ci = Except.error missingSourceMsg) ∧
    (∀ p u, m.file = some p → m.url = some u →
      mkCredentials ci = Except.error ambiguousSourceMsg) ∧
    containsSubstr missingSourceMsg "Missing credential_source" = true ∧
    containsSubstr ambiguousSourceMsg "Ambiguous credential_source" = true := by
  refine ⟨?_, ?_, by decide, by decide⟩
  · intro hf hu
    simp only [mkCredentials, validateCredentialSource, hsrc, henv, hfmt, hf, hu,
      Option.isSome_none, Bool.false_eq_true, if_false]
  · intro p u hf hu
    simp only [mkCredentials, validateCredentialSource, hsrc, henv, hfmt, hf, hu,
      Option.isSome_none, Bool.false_eq_true, if_false]

/-- Witness for C7: the empty mapping fails with the missing-source error. -/
theorem missing_or_ambiguous_source_validation_witness :
    emptyMappingInput.credential_source = CredentialSourceInput.mapping emptyMapping ∧
    emptyMapping.environment_id = none ∧
    parseFormat emptyMapping.format = Except.ok CredFormat.text ∧
    ((emptyMapping.file = none → emptyMapping.url = none →
        mkCredentials emptyMappingInput = Except.error missingSourceMsg) ∧
      (∀ p u, emptyMapping.file = some p → emptyMapping.url = some u →
        mkCredentials emptyMappingInput = Except.error ambiguousSourceMsg) ∧
      containsSubstr missingSourceMsg "Missing credential_source" = true ∧
      containsSubstr ambiguousSourceMsg "Ambiguous credential_source" = true) :=
  ⟨rfl, rfl, rfl,
    missing_or_ambiguous_source_validation emptyMappingInput emptyMapping CredFormat.text
      rfl rfl rfl⟩

/-- The shared parse-error message always starts with "Unable to parse",
whatever source name and field name are substituted in. -/
theorem parseErrMsg_starts_unable_to_parse (s f : String) :
    "Unable to parse".data <+: (parseErrMsg s f).data := by
  have h1 : "Unable to parse".data
      <+: "Unable to parse subject_token from JSON file '".data := by
    rw [← List.isPrefixOf_iff_prefix]; decide
  refine h1.trans ?_
  unfold parseErrMsg
  simp only [String.data_append, List.append_assoc]
  exact List.prefix_append _ _

/-- The network-retrieval error differs from the parse error at every source
name and field name. -/
theorem urlErr_ne_parseErrMsg (s f : String) : urlRetrievalErrMsg ≠ parseErrMsg s f := by
  intro h
  have hp : "Unable to parse".data <+: urlRetrievalErrMsg.data := by
    rw [h]; exact parseErrMsg_starts_unable_to_parse s f
  rw [← List.isPrefixOf_iff_prefix] at hp
  exact absurd hp (by decide)

/-- C5: with json format, a body that is malformed JSON or lacks the
configured field produces the same parse error for a file source and a
URL source, naming the path or the URL respectively and the field
name. -/
theorem json_parse_error_uniform_across_sources
    (path u fieldName : String) (hdrs : Option (List (String × String)))
    (body : SourceBody) (envF envU : Env)
    (hex : jsonExtract body fieldName = none)
    (hfs : envF.fs path = some body)
    (hstatus : isSuccess envU.urlResponse.status = true)
    (hbody : envU.urlResponse.body = body) :
    retrieveSubjectToken (ParsedSource.fromFile path (CredFormat.json fieldName)) envF
      = Except.error (parseErrMsg path fieldName) ∧
    retrieveSubjectToken (ParsedSource.fromUrl u hdrs (CredFormat.json fieldName)) envU
      = Except.error (parseErrMsg u fieldName) := by
  constructor
  · simp only [retrieveSubjectToken, hfs, parseSubjectToken, hex]
  · simp only [retrieveSubjectToken, hstatus, if_true, hbody, parseSubjectToken, hex]

/-- Witness for C5: the malformed body "{" yields the parse error from both a
file source and a URL source. -/
theorem json_parse_error_uniform_across_sources_witness :
    jsonExtract badBody "access_token" = none ∧
    badFileEnv.fs "/tmp/invalid.json" = some badBody ∧
    isSuccess badUrlEnv.urlResponse.status = true ∧
    badUrlEnv.urlResponse.body = badBody ∧
    (retrieveSubjectToken
        (ParsedSource.fromFile "/tmp/invalid.json" (CredFormat.json "access_token")) badFileEnv
      = Except.error (parseErrMsg "/tmp/invalid.json" "access_token") ∧
    retrieveSubjectToken
        (ParsedSource.fromUrl "http://fakeurl.com" none (CredFormat.json "access_token")) badUrlEnv
      = Except.error (parseErrMsg "http://fakeurl.com" "access_token")) :=
  ⟨rfl, rfl, by decide, rfl,
    json_parse_error_uniform_across_sources "/tmp/invalid.json" "http://fakeurl.com"
      "access_token" none badBody badFileEnv badUrlEnv rfl rfl (by decide) rfl⟩

/-- C6: a URL source answering with a non-2xx status fails with the
network-retrieval error whatever the response body holds, and that error
is distinguishable from every parse error. -/
theorem url_source_non_success_distinct_error
    (u : String) (hdrs : Option (List (String × String))) (fmt : CredFormat) (env : Env)
    (hstatus : isSuccess env.urlResponse.status = false) :
    retrieveSubjectToken (ParsedSource.fromUrl u hdrs fmt) env
      = Except.error urlRetrievalErrMsg ∧
    (∀ s f, urlRetrievalErrMsg ≠ parseErrMsg s f) := by
  constructor
  · simp only [retrieveSubjectToken, hstatus, Bool.false_eq_true, if_false]
  · exact urlErr_ne_parseErrMsg

/-- Witness for C6: a 404 from the source URL fails with the
network-retrieval error even though the body holds a valid token. -/
theorem url_source_non_success_distinct_error_witness :
    isSuccess notFoundEnv.urlResponse.status = false ∧
    (retrieveSubjectToken
        (ParsedSource.fromUrl "http://fakeurl.com" none (CredFormat.json "access_token"))
        notFoundEnv
      = Except.error urlRetrievalErrMsg ∧
    (∀ s f, urlRetrievalErrMsg ≠ parseErrMsg s f)) :=
  ⟨by decide,
    url_source_non_success_distinct_error "http://fakeurl.com" none
      (CredFormat.json "access_token") notFoundEnv (by decide)⟩

/-- The scope parameter of every built token-exchange request is the
space-join of the selected exchange scopes. -/
theorem buildTokenRequest_scope_param (cfg : Config) (st : String) :
    (buildTokenRequest cfg st).params.lookup "scope"
      = some (String.intercalate " " (exchangeScopes cfg)) := rfl

/-- With both client credentials configured, the built exchange request
carries the basic-auth Authorization header. -/
theorem buildTokenRequest_auth_some (cfg : Config) (st i s : String)
    (hid : cfg.client_id = some i) (hsec : cfg.client_secret = some s) :
    (buildTokenRequest cfg st).headers.lookup "Authorization"
      = some ("Basic " ++ base64Encode (i ++ ":" ++ s)) := by
  simp only [buildTokenRequest, basicAuthHeaders, hid, hsec]
  rfl

/-- With either client credential absent, the built exchange request carries
no Authorization header at all. -/
theorem buildTokenRequest_auth_none (cfg : Config) (st : String)
    (h : cfg.client_id = none ∨ cfg.client_secret = none) :
    (buildTokenRequest cfg st).headers.lookup "Authorization" = none := by
  rcases h with h1 | h1
  · simp only [buildTokenRequest, basicAuthHeaders, h1]
    rfl
  · cases hid : cfg.client_id with
    | none => simp only [buildTokenRequest, basicAuthHeaders, hid]; rfl
    | some i => simp only [buildTokenRequest, basicAuthHeaders, hid, h1]; rfl

/-- The model's base64 agrees with the test suite's recorded encoding of
"username:password". -/
theorem base64Encode_username_password :
    base64Encode "username:password" = "dXNlcm5hbWU6cGFzc3dvcmQ=" := by decide

/-- C1: with an impersonation URL configured, every token-exchange request a
refresh sends asks for exactly the fixed IAM scope, whatever scopes and
default scopes the caller configured, while the impersonation request
carries the caller-resolved scopes: the explicit scopes when present and
non-empty, else the default scopes. -/
theorem refresh_impersonation_scope_override
    (cfg : Config) (impUrl : String) (env : Env) (now : Nat)
    (himp : cfg.service_account_impersonation_url = some impUrl) :
    (∀ req, (doRefresh cfg env now).exchangeRequest = some req →
      req.params.lookup "scope" = some iamScope) ∧
    (∀ ireq, (doRefresh cfg env now).impersonationRequest = some ireq →
      ireq.body.scope = resolvedScopes cfg) ∧
    (∀ s, cfg.scopes = some s → s ≠ [] → resolvedScopes cfg = s) ∧
    (cfg.scopes = none → resolvedScopes cfg = cfg.default_scopes.getD []) := by
  refine ⟨?_, ?_, ?_, ?_⟩
  · intro req hreq
    obtain ⟨st, rfl⟩ := doRefresh_exchangeRequest_shape hreq
    rw [buildTokenRequest_scope_param]
    unfold exchangeScopes
    rw [himp]
    rfl
  · intro ireq hireq
    obtain ⟨u2, b, _, rfl⟩ := doRefresh_impersonationRequest_shape hireq
    rfl
  · intro s hs hne
    unfold resolvedScopes
    rw [hs]
    cases s with
    | nil => exact absurd rfl hne
    | cons a t => rfl
  · intro hs
    unfold resolvedScopes
    rw [hs]

/-- Witness for C1: the sample impersonation configuration (explicit scopes
scope1 scope2, ignored defaults) exchanges with the IAM scope and
impersonates with the explicit scopes. -/
theorem refresh_impersonation_scope_override_witness :
    impCfg.service_account_impersonation_url = some sampleImpUrl ∧
    ((∀ req, (doRefresh impCfg sampleEnv 0).exchangeRequest = some req →
      req.params.lookup "scope" = some iamScope) ∧
    (∀ ireq, (doRefresh impCfg sampleEnv 0).impersonationRequest = some ireq →
      ireq.body.scope = resolvedScopes impCfg) ∧
    (∀ s, impCfg.scopes = some s → s ≠ [] → resolvedScopes impCfg = s) ∧
    (impCfg.scopes = none → resolvedScopes impCfg = impCfg.default_scopes.getD [])) :=
  ⟨rfl, refresh_impersonation_scope_override impCfg sampleImpUrl sampleEnv 0 rfl⟩

/-- C4: without impersonation, every token-exchange request a refresh sends
asks for the space-join of the explicit scopes when they are present and
non-empty (defaults ignored), and for the space-join of the default
scopes when the explicit scopes are absent or empty. -/
theorem exchange_scope_without_impersonation
    (cfg : Config) (env : Env) (now : Nat) (req : StsRequest)
    (himp : cfg.service_account_impersonation_url = none)
    (hreq : (doRefresh cfg env now).exchangeRequest = some req) :
    (∀ s, cfg.scopes = some s → s ≠ [] →
      req.params.lookup "scope" = some (String.intercalate " " s)) ∧
    (∀ d, cfg.default_scopes = some d → (cfg.scopes = none ∨ cfg.scopes = some []) →
      req.params.lookup "scope" = some (String.intercalate " " d)) := by
  obtain ⟨st, rfl⟩ := doRefresh_exchangeRequest_shape hreq
  constructor
  · intro s hs hne
    rw [buildTokenRequest_scope_param]
    unfold exchangeScopes
    rw [himp]
    simp only [Option.isSome_none, Bool.false_eq_true, if_false]
    unfold resolvedScopes
    rw [hs]
    cases s with
    | nil => exact absurd rfl hne
    | cons a t => rfl
  · intro d hd hcase
    rw [buildTokenRequest_scope_param]
    unfold exchangeScopes
    rw [himp]
    simp only [Option.isSome_none, Bool.false_eq_true, if_false]
    unfold resolvedScopes
    rcases hcase with h1 | h1
    · rw [h1, hd]; rfl
    · rw [h1, hd]; rfl

/-- Witness for C4: the sample configuration without impersonation asks for
"scope1 scope2", its explicit scopes, ignoring the default scopes. -/
theorem exchange_scope_without_impersonation_witness :
    baseCfg.service_account_impersonation_url = none ∧
    (doRefresh baseCfg sampleEnv 0).exchangeRequest
        = some (buildTokenRequest baseCfg "subject_token_0") ∧
    ((∀ s, baseCfg.scopes = some s → s ≠ [] →
      (buildTokenRequest baseCfg "subject_token_0").params.lookup "scope"
        = some (String.intercalate " " s)) ∧
    (∀ d, baseCfg.default_scopes = some d →
        (baseCfg.scopes = none ∨ baseCfg.scopes = some []) →
      (buildTokenRequest baseCfg "subject_token_0").params.lookup "scope"
        = some (String.intercalate " " d))) :=
  ⟨rfl, rfl, exchange_scope_without_impersonation baseCfg sampleEnv 0
    (buildTokenRequest baseCfg "subject_token_0") rfl rfl⟩

/-- C8: every token-exchange request a refresh sends carries the
Authorization header "Basic " ++ base64(client_id:client_secret) exactly
when both client credentials are configured, and no Authorization header
at all when either is absent. -/
theorem exchange_basic_auth_header_iff
    (cfg : Config) (env : Env) (now : Nat) (req : StsRequest)
    (hreq : (doRefresh cfg env now).exchangeRequest = some req) :
    (∀ i s, cfg.client_id = some i → cfg.client_secret = some s →
      req.headers.lookup "Authorization"
        = some ("Basic " ++ base64Encode (i ++ ":" ++ s))) ∧
    ((cfg.client_id = none ∨ cfg.client_secret = none) →
      req.headers.lookup "Authorization" = none) := by
  obtain ⟨st, rfl⟩ := doRefresh_exchangeRequest_shape hreq
  exact ⟨fun i s hid hsec => buildTokenRequest_auth_some cfg st i s hid hsec,
    fun h => buildTokenRequest_auth_none cfg st h⟩

/-- A sample configuration with both client credentials configured. -/
def authCfg : Config :=
  { baseCfg with client_id := some "username", client_secret := some "password" }

/-- Witness for C8: with username/password configured, the sent exchange
request carries the basic-auth header. -/
theorem exchange_basic_auth_header_iff_witness :
    (doRefresh authCfg sampleEnv 0).exchangeRequest
        = some (buildTokenRequest authCfg "subject_token_0") ∧
    ((∀ i s, authCfg.client_id = some i → authCfg.client_secret = some s →
      (buildTokenRequest authCfg "subject_token_0").headers.lookup "Authorization"
        = some ("Basic " ++ base64Encode (i ++ ":" ++ s))) ∧
    ((authCfg.client_id = none ∨ authCfg.client_secret = none) →
      (buildTokenRequest authCfg "subject_token_0").headers.lookup "Authorization" = none)) :=
  ⟨rfl, exchange_basic_auth_header_iff authCfg sampleEnv 0
    (buildTokenRequest authCfg "subject_token_0") rfl⟩

/-- C2: after a successful refresh the stored token is the fresh result;
with impersonation configured it equals the impersonation endpoint's
accessToken (never the intermediate exchange-step token when the two
differ), and without impersonation it equals the exchange endpoint's
access_token. -/
theorem refresh_stores_final_token
    (c : Credentials) (env : Env) (now : Nat) (tok : Token)
    (hok : (doRefresh c.cfg env now).result = Except.ok tok) :
    (c.refresh env now).1.token = some tok.token ∧
    (∀ impUrl ir, c.cfg.service_account_impersonation_url = some impUrl →
      env.impEndpoint.parsed = some ir → tok.token = ir.accessToken) ∧
    (∀ sr, c.cfg.service_account_impersonation_url = none →
      env.stsEndpoint.parsed = some sr → tok.token = sr.access_token) ∧
    (∀ impUrl sr ir, c.cfg.service_account_impersonation_url = some impUrl →
      env.stsEndpoint.parsed = some sr → env.impEndpoint.parsed = some ir →
      sr.access_token ≠ ir.accessToken → tok.token ≠ sr.access_token) := by
  have hshape := doRefresh_result_ok_shape hok
  have himpKey : ∀ impUrl ir, c.cfg.service_account_impersonation_url = some impUrl →
      env.impEndpoint.parsed = some ir → tok.token = ir.accessToken := by
    intro impUrl ir himp hir
    rcases hshape with ⟨hnone, _⟩ | ⟨u2, ir2, himp2, hi, htok⟩
    · rw [himp] at hnone; exact Option.noConfusion hnone
    · have h12 := (impersonateToken_ok_parsed hi).symm.trans hir
      obtain rfl := Option.some.inj h12
      rw [htok]
  refine ⟨?_, himpKey, ?_, ?_⟩
  · unfold Credentials.refresh
    rw [hok]
  · intro sr hnone hsr
    rcases hshape with ⟨_, sr2, he, htok⟩ | ⟨u2, ir2, himp2, _, _⟩
    · have h12 := (exchangeToken_ok_parsed he).symm.trans hsr
      obtain rfl := Option.some.inj h12
      rw [htok]
    · rw [hnone] at himp2; exact Option.noConfusion himp2
  · intro impUrl sr ir himp hsr hir hne htoksr
    exact hne (htoksr.symm.trans (himpKey impUrl ir himp hir))

/-- A sample credential with impersonation configured and no cached token. -/
def impCred : Credentials := { cfg := impCfg, token := none, expiry := none }

/-- Witness for C2: refreshing the sample impersonation credential stores
"SA_ACCESS_TOKEN" — the impersonation endpoint's token, not the exchange
step's "ACCESS_TOKEN". -/
theorem refresh_stores_final_token_witness :
    (doRefresh impCred.cfg sampleEnv 0).result
        = Except.ok { token := "SA_ACCESS_TOKEN", expiry := 99999 } ∧
    ((impCred.refresh sampleEnv 0).1.token
        = some (Token.token { token := "SA_ACCESS_TOKEN", expiry := 99999 }) ∧
    (∀ impUrl ir, impCred.cfg.service_account_impersonation_url = some impUrl →
      sampleEnv.impEndpoint.parsed = some ir →
      Token.token { token := "SA_ACCESS_TOKEN", expiry := 99999 } = ir.accessToken) ∧
    (∀ sr, impCred.cfg.service_account_impersonation_url = none →
      sampleEnv.stsEndpoint.parsed = some sr →
      Token.token { token := "SA_ACCESS_TOKEN", expiry := 99999 } = sr.access_token) ∧
    (∀ impUrl sr ir, impCred.cfg.service_account_impersonation_url = some impUrl →
      sampleEnv.stsEndpoint.parsed = some sr → sampleEnv.impEndpoint.parsed = some ir →
      sr.access_token ≠ ir.accessToken →
      Token.token { token := "SA_ACCESS_TOKEN", expiry := 99999 } ≠ sr.access_token)) :=
  ⟨rfl, refresh_stores_final_token impCred sampleEnv 0
    { token := "SA_ACCESS_TOKEN", expiry := 99999 } rfl⟩

end IdentityPool
